import Mathlib

/-!
Verification of the galeri24-mining gold-price scraper (`src/main.py`).

The pure logic of the script is embedded shallowly:
* `parse_currency_to_int` — the localized currency parser (main.py:58-68);
* `parse_table` — structural row extraction for one section (main.py:70-78);
* `scrapeCore` — the post-fetch part of `scrape` (main.py:89-128), with the
  run time modelled as seconds since the Unix epoch and the matched markup
  sections given as data;
* `append_to_sheet` — the dedup-and-append step (main.py:143-175), with the
  worksheet modelled as the list of its rows of cell strings;
* `auth_gspread_from_env` — the credential handling (main.py:130-140),
  modelled by the file-system effects it performs.
-/

/-! ## Currency parsing (main.py:58-68) -/

/-- A character matched by the character class of the pattern
`([\d\.\,]+)`: a decimal digit, a dot or a comma. -/
def isNumSep (c : Char) : Bool := c.isDigit || c == '.' || c == ','

/-- `re.search` for the pattern `([\d\.\,]+)`: the first maximal run of
digit/separator characters, or `none` when no such character occurs. -/
def firstRun : List Char → Option (List Char)
  | [] => none
  | c :: cs => if isNumSep c then some (c :: cs.takeWhile isNumSep) else firstRun cs

/-- `num.replace(".", "").replace(",", "")`: drop the separators. -/
def stripSeps (cs : List Char) : List Char := cs.filter (fun c => !(c == '.' || c == ','))

/-- Python `int` on a non-empty all-digit string: its decimal value. -/
def digitsVal (cs : List Char) : Nat := cs.foldl (fun n c => 10 * n + (c.toNat - 48)) 0

/-- `parse_currency_to_int(text)` (main.py:58-68).  The input `none` models
Python `None` as well as any non-string value: both are rejected by the
guard `not text or not isinstance(text, str)`, which also rejects the empty
string.  `int(num)` raising `ValueError` on the empty digit string is the
`num.isEmpty` branch. -/
def parse_currency_to_int : Option String → Option Nat
  | none => none
  | some s =>
    if s.data = [] then none
    else
      match firstRun s.data with
      | none => none
      | some run =>
        let num := stripSeps run
        if num = [] then none else some (digitsVal num)

/-! ## Helper lemmas about `firstRun` -/

lemma firstRun_append_none (a l : List Char) (ha : ∀ x ∈ a, isNumSep x = false) :
    firstRun (a ++ l) = firstRun l := by
  induction a with
  | nil => rfl
  | cons c cs ih =>
    have hc : isNumSep c = false := ha c (List.mem_cons_self c cs)
    have hstep : firstRun (c :: (cs ++ l)) = firstRun (cs ++ l) := by
      simp [firstRun, hc]
    rw [List.cons_append, hstep]
    exact ih (fun x hx => ha x (List.mem_cons_of_mem c hx))

lemma takeWhile_append_all (b c : List Char) (hb : ∀ x ∈ b, isNumSep x = true)
    (hc : ∀ x, c.head? = some x → isNumSep x = false) :
    (b ++ c).takeWhile isNumSep = b := by
  induction b with
  | nil =>
    cases c with
    | nil => rfl
    | cons x xs =>
      have hx : isNumSep x = false := hc x rfl
      simp [List.takeWhile, hx]
  | cons y ys ih =>
    have hy : isNumSep y = true := hb y (List.mem_cons_self y ys)
    simp only [List.cons_append, List.takeWhile_cons, hy, if_pos]
    rw [ih (fun x hx => hb x (List.mem_cons_of_mem y hx))]

lemma firstRun_locate (a b c : List Char) (ha : ∀ x ∈ a, isNumSep x = false)
    (hb0 : b ≠ []) (hb : ∀ x ∈ b, isNumSep x = true)
    (hc : ∀ x, c.head? = some x → isNumSep x = false) :
    firstRun (a ++ b ++ c) = some b := by
  rw [List.append_assoc, firstRun_append_none a (b ++ c) ha]
  cases b with
  | nil => exact absurd rfl hb0
  | cons y ys =>
    have hy : isNumSep y = true := hb y (List.mem_cons_self y ys)
    simp only [List.cons_append, firstRun, hy, if_pos, List.append_eq]
    rw [takeWhile_append_all ys c (fun x hx => hb x (List.mem_cons_of_mem y hx)) hc]

/-- C3: the currency parser sends `"Rp 1.234.567"` and `"Rp 1,234,567"` to
`1234567`, and `""` and `"abc"` to the unparseable result `none`; in
general, on a string that decomposes as a prefix without digit/separator
characters, a non-empty digit/separator run, and a remainder not starting
with a digit/separator character, it strips `.` and `,` from that first run
and returns the decimal value of the remaining digits, or `none` when no
digits remain. -/
theorem C3_parse_currency_spec :
    parse_currency_to_int (some "Rp 1.234.567") = some 1234567 ∧
    parse_currency_to_int (some "Rp 1,234,567") = some 1234567 ∧
    parse_currency_to_int (some "") = none ∧
    parse_currency_to_int (some "abc") = none ∧
    ∀ a b c : List Char, (∀ x ∈ a, isNumSep x = false) → b ≠ [] →
      (∀ x ∈ b, isNumSep x = true) →
      (∀ x, c.head? = some x → isNumSep x = false) →
      parse_currency_to_int (some (String.mk (a ++ b ++ c))) =
        (if stripSeps b = [] then none else some (digitsVal (stripSeps b))) := by
  refine ⟨by decide, by decide, by decide, by decide, ?_⟩
  intro a b c ha hb0 hb hc
  have hdata : (String.mk (a ++ b ++ c)).data = a ++ b ++ c := rfl
  have hne : a ++ b ++ c ≠ [] := by
    intro h
    rcases List.append_eq_nil.mp h with ⟨h1, -⟩
    exact hb0 (List.append_eq_nil.mp h1).2
  simp only [parse_currency_to_int, hdata, if_neg hne,
    firstRun_locate a b c ha hb0 hb hc]

/-- Witness for C3: the general clause applied at `"Rp 77.000"` split as
`"Rp " ++ "77.000" ++ ""`. -/
theorem C3_parse_currency_spec_witness :
    parse_currency_to_int (some (String.mk ("Rp ".data ++ "77.000".data ++ []))) =
      (if stripSeps "77.000".data = [] then none
       else some (digitsVal (stripSeps "77.000".data))) :=
  C3_parse_currency_spec.2.2.2.2 "Rp ".data "77.000".data []
    (by decide) (by decide) (by decide) (by decide)

/-- C9: the currency parser is total and never raises: `None` (and any
non-string value, which the same guard rejects) yields `none`, a string all
of whose characters lie outside the digit/separator class yields `none`,
and a string whose first digit/separator run consists only of separators
(such as `".,"`) yields `none`. -/
theorem C9_parse_currency_total :
    parse_currency_to_int none = none ∧
    (∀ s : String, (∀ x ∈ s.data, isNumSep x = false) →
      parse_currency_to_int (some s) = none) ∧
    parse_currency_to_int (some ".,") = none := by
  refine ⟨rfl, ?_, by decide⟩
  intro s hs
  by_cases hd : s.data = []
  · simp [parse_currency_to_int, hd]
  · have hrun : firstRun s.data = none := by
      have := firstRun_append_none s.data [] hs
      simpa using this
    simp [parse_currency_to_int, hd, hrun]

/-- Witness for C9: the no-digit clause applied at the concrete string
`"xyz"`. -/
theorem C9_parse_currency_total_witness :
    parse_currency_to_int (some "xyz") = none :=
  C9_parse_currency_total.2.1 "xyz" (by decide)

/-! ## Structural row extraction (main.py:70-78) -/

/-- A raw extracted row `[timestamp_iso, brand, weight, jual, buyback]`
as appended by `parse_table` (main.py:77). -/
structure RawRow where
  timestamp : String
  brand : String
  weight : String
  jual : String
  buyback : String
deriving DecidableEq, Repr

/-- The body of the loop in `parse_table` (main.py:73-77): a row element
whose list of cell texts has exactly 3 entries is unpacked as
`weight, jual, buyback` and yields one raw row; any other cell count
yields nothing. -/
def rowToRaw (ts brand : String) (cols : List String) : Option RawRow :=
  match cols with
  | [w, j, b] => some ⟨ts, brand, w, j, b⟩
  | _ => none

/-- `parse_table(container_div, brand, timestamp_iso)` (main.py:70-78):
the row elements of the section are given by their lists of cell texts. -/
def parse_table (ts brand : String) (rows : List (List String)) : List RawRow :=
  rows.filterMap (rowToRaw ts brand)

/-- C5: in any section, a row element with exactly 3 populated text cells
contributes exactly one extracted row, in place, and a row element with
any other cell count contributes no row: extraction distributes over the
row list, and the contribution of a single row element has size 1
exactly when it has 3 cells, else size 0. -/
theorem C5_three_cell_rows :
    (∀ ts brand rows1 r rows2,
      parse_table ts brand (rows1 ++ r :: rows2) =
        parse_table ts brand rows1 ++ (rowToRaw ts brand r).toList ++
          parse_table ts brand rows2) ∧
    (∀ ts brand (r : List String),
      (rowToRaw ts brand r).toList.length = if r.length = 3 then 1 else 0) ∧
    (∀ ts brand, parse_table ts brand [["1 gram", "Rp 1.000.000", "Rp 950.000"]] =
      [⟨ts, brand, "1 gram", "Rp 1.000.000", "Rp 950.000"⟩]) ∧
    (∀ ts brand w j, parse_table ts brand [[w, j]] = []) := by
  refine ⟨?_, ?_, ?_, ?_⟩
  · intro ts brand rows1 r rows2
    simp only [parse_table, List.filterMap_append, List.filterMap_cons]
    cases h : rowToRaw ts brand r <;> simp [h]
  · intro ts brand r
    match r with
    | [] => rfl
    | [a] => rfl
    | [a, b] => rfl
    | [a, b, c] => rfl
    | a :: b :: c :: d :: rest => simp [rowToRaw, List.length_cons]
  · intro ts brand
    rfl
  · intro ts brand w j
    rfl

/-! ## Dedup-and-append (main.py:143-175) -/

/-- A fully normalized price row: the columns of the dataframe returned by
`scrape` (main.py:121). -/
structure PriceRow where
  timestamp : String
  timestamp_local : String
  brand : String
  weight : String
  harga_jual : Nat
  harga_buyback : Nat
deriving DecidableEq, Repr

/-- The list of cell strings a `PriceRow` occupies once written to the
worksheet by `set_with_dataframe` (main.py:173), in the column order fixed
at main.py:121. -/
def toCells (r : PriceRow) : List String :=
  [r.timestamp, r.timestamp_local, r.brand, r.weight,
   toString r.harga_jual, toString r.harga_buyback]

/-- `existing_ts` (main.py:159-163): the timestamp cells of all data rows
(every row after the header) that are long enough to have a cell at the
timestamp column index. -/
def existingTs (existing : List (List String)) (i : Nat) : List String :=
  (existing.drop 1).filterMap (fun row => row.get? i)

/-- The duplicate filter of `append_to_sheet` (main.py:155-165): when the
store is non-empty and its header row has a column named `timestamp`,
incoming rows whose timestamp already occurs in the store are dropped;
otherwise the incoming rows pass through unchanged. -/
def dedupRows (store : List (List String)) (df : List PriceRow) : List PriceRow :=
  match store with
  | [] => df
  | header :: _ =>
    if "timestamp" ∈ header then
      df.filter (fun r => !((existingTs store (header.indexOf "timestamp")).contains r.timestamp))
    else df

/-- `append_to_sheet(df)` (main.py:143-175) acting on a store modelled as
the list of worksheet rows: returns the new store contents and the number
of appended rows (the function's return value).  `set_with_dataframe` at
`row = len(existing) + 1` without header writes the surviving rows
immediately after the existing ones. -/
def append_to_sheet (store : List (List String)) (df : List PriceRow) :
    List (List String) × Nat :=
  if df = [] then (store, 0)
  else
    let df2 := dedupRows store df
    if df2 = [] then (store, 0)
    else (store ++ df2.map toCells, df2.length)

/-- C7: the append step preserves the append-only store invariant: the new
store extends the old one (no existing row is overwritten, mutated or
reordered, and the store only grows), the number of rows added equals the
returned count, and every added row is the cell image of one of the
incoming rows that survived duplicate filtering, written right after the
existing rows with no header row. -/
theorem C7_append_only :
    ∀ store df, ∃ extra,
      (append_to_sheet store df).1 = store ++ extra ∧
      extra.length = (append_to_sheet store df).2 ∧
      (extra = [] ∨ extra = (dedupRows store df).map toCells) := by
  intro store df
  by_cases h1 : df = []
  · exact ⟨[], by simp [append_to_sheet, h1], by simp [append_to_sheet, h1], Or.inl rfl⟩
  · by_cases h2 : dedupRows store df = []
    · exact ⟨[], by simp [append_to_sheet, h1, h2], by simp [append_to_sheet, h1, h2],
        Or.inl rfl⟩
    · refine ⟨(dedupRows store df).map toCells, ?_, ?_, Or.inr rfl⟩
      · simp [append_to_sheet, h1, h2]
      · simp [append_to_sheet, h1, h2]

/-- C10: when the store is empty, or its header row has no column named
`timestamp`, no duplicate filtering happens: every incoming row is
appended (even one whose timestamp already occurs in the store) and the
count of all incoming rows is returned. -/
theorem C10_no_header_no_dedup :
    ∀ store df, (∀ header rest, store = header :: rest → "timestamp" ∉ header) →
      df ≠ [] →
      append_to_sheet store df = (store ++ df.map toCells, df.length) := by
  intro store df hheader hdf
  have hded : dedupRows store df = df := by
    cases store with
    | nil => rfl
    | cons header rest =>
      simp [dedupRows, hheader header rest rfl]
  simp [append_to_sheet, hdf, hded]

/-- Witness for C10: a store whose header lacks a `timestamp` column, and
one incoming row whose timestamp string already occurs in the store; the
row is appended anyway. -/
theorem C10_no_header_no_dedup_witness :
    append_to_sheet [["time", "brand"], ["t0", "b"]]
        [⟨"t0", "l0", "b", "1 gram", 10, 9⟩] =
      ([["time", "brand"], ["t0", "b"], ["t0", "l0", "b", "1 gram", "10", "9"]], 1) := by
  have h := C10_no_header_no_dedup [["time", "brand"], ["t0", "b"]]
    [⟨"t0", "l0", "b", "1 gram", 10, 9⟩]
    (by intro header rest he; cases he; decide) (by decide)
  simpa [toCells] using h

lemma existingTs_cons (h : List String) (tl : List (List String)) (i : Nat) :
    existingTs (h :: tl) i = tl.filterMap (fun row => row.get? i) := rfl

/-- C1: against a store whose header row has `timestamp` as its first
column (the fixed schema of the persisted store) and which does not yet
hold the run's timestamp, running the append step twice with the same
non-empty list of normalized rows, all sharing that one run timestamp,
appends every row on the first call and appends zero rows (returning 0)
on the second call, leaving the store unchanged by the second call. -/
theorem C1_append_twice_dedup :
    ∀ (hrest : List String) (rest : List (List String)) (df : List PriceRow) (t : String),
      df ≠ [] →
      (∀ r ∈ df, r.timestamp = t) →
      t ∉ existingTs (("timestamp" :: hrest) :: rest) 0 →
      append_to_sheet (("timestamp" :: hrest) :: rest) df =
        ((("timestamp" :: hrest) :: rest) ++ df.map toCells, df.length) ∧
      append_to_sheet ((("timestamp" :: hrest) :: rest) ++ df.map toCells) df =
        ((("timestamp" :: hrest) :: rest) ++ df.map toCells, 0) := by
  intro hrest rest df t hdf hts hfresh
  have hmem : "timestamp" ∈ "timestamp" :: hrest := List.mem_cons_self _ _
  have hidx : ("timestamp" :: hrest).indexOf "timestamp" = 0 :=
    List.indexOf_cons_self _ _
  have hded1 : dedupRows (("timestamp" :: hrest) :: rest) df = df := by
    simp only [dedupRows, if_pos hmem, hidx]
    apply List.filter_eq_self.mpr
    intro r hr
    rw [hts r hr]
    simpa using hfresh
  have hded2 :
      dedupRows (("timestamp" :: hrest) :: (rest ++ df.map toCells)) df = [] := by
    simp only [dedupRows, if_pos hmem, hidx]
    apply List.filter_eq_nil_iff.mpr
    intro r hr
    obtain ⟨r0, hr0⟩ := List.exists_mem_of_ne_nil df hdf
    have htmem : t ∈ existingTs (("timestamp" :: hrest) :: (rest ++ df.map toCells)) 0 := by
      rw [existingTs_cons]
      apply List.mem_filterMap.mpr
      refine ⟨toCells r0, List.mem_append_right _ (List.mem_map_of_mem _ hr0), ?_⟩
      rw [show (toCells r0).get? 0 = some r0.timestamp from rfl, hts r0 hr0]
    rw [hts r hr]
    simpa using htmem
  constructor
  · simp [append_to_sheet, hdf, hded1]
  · simp [append_to_sheet, hdf, List.cons_append, hded2]

/-- Witness for C1: a store holding only the schema header, and one
normalized row; the first call appends it, the second call appends
nothing and returns 0. -/
theorem C1_append_twice_dedup_witness :
    append_to_sheet
        (("timestamp" :: ["timestamp_local", "brand", "weight", "harga_jual", "harga_buyback"]) :: [])
        [⟨"t1", "l1", "GALERI 24", "1 gram", 1000000, 950000⟩] =
      ((("timestamp" :: ["timestamp_local", "brand", "weight", "harga_jual", "harga_buyback"]) :: []) ++
        [(⟨"t1", "l1", "GALERI 24", "1 gram", 1000000, 950000⟩ : PriceRow)].map toCells,
       ([(⟨"t1", "l1", "GALERI 24", "1 gram", 1000000, 950000⟩ : PriceRow)]).length) ∧
    append_to_sheet
        ((("timestamp" :: ["timestamp_local", "brand", "weight", "harga_jual", "harga_buyback"]) :: []) ++
          [(⟨"t1", "l1", "GALERI 24", "1 gram", 1000000, 950000⟩ : PriceRow)].map toCells)
        [⟨"t1", "l1", "GALERI 24", "1 gram", 1000000, 950000⟩] =
      ((("timestamp" :: ["timestamp_local", "brand", "weight", "harga_jual", "harga_buyback"]) :: []) ++
        [(⟨"t1", "l1", "GALERI 24", "1 gram", 1000000, 950000⟩ : PriceRow)].map toCells, 0) :=
  C1_append_twice_dedup
    ["timestamp_local", "brand", "weight", "harga_jual", "harga_buyback"] []
    [⟨"t1", "l1", "GALERI 24", "1 gram", 1000000, 950000⟩] "t1"
    (by decide) (by decide) (by decide)

/-! ## The scrape pipeline after the fetch (main.py:89-128)

The run time `datetime.now(timezone.utc)` is modelled as a number of
seconds since the Unix epoch.  `isoformat()` and
`strftime("%Y-%m-%d %H:%M:%S")` are implemented over that value with the
standard civil-from-days calendar computation. -/

/-- Zero-padded two-digit decimal rendering, as `%m`, `%d`, `%H`, `%M`,
`%S` produce. -/
def twoDigits (n : Nat) : String := (if n < 10 then "0" else "") ++ toString n

/-- Gregorian `(year, month, day)` of a day count since 1970-01-01. -/
def civilFromDays (z0 : Nat) : Nat × Nat × Nat :=
  let z := z0 + 719468
  let era := z / 146097
  let doe := z % 146097
  let yoe := (doe - doe / 1460 + doe / 36524 - doe / 146096) / 365
  let y := yoe + era * 400
  let doy := doe - (365 * yoe + yoe / 4 - yoe / 100)
  let mp := (5 * doy + 2) / 153
  let d := doy - (153 * mp + 2) / 5 + 1
  let m := if mp < 10 then mp + 3 else mp - 9
  (if m ≤ 2 then y + 1 else y, m, d)

/-- `%Y-%m-%d` of an epoch-seconds value. -/
def dateString (t : Nat) : String :=
  match civilFromDays (t / 86400) with
  | (y, m, d) => toString y ++ "-" ++ twoDigits m ++ "-" ++ twoDigits d

/-- `%H:%M:%S` of an epoch-seconds value. -/
def timeString (t : Nat) : String :=
  let rem := t % 86400
  twoDigits (rem / 3600) ++ ":" ++ twoDigits (rem % 3600 / 60) ++ ":" ++ twoDigits (rem % 60)

/-- `datetime.now(timezone.utc).isoformat()` (main.py:90) for a run time
with zero microseconds. -/
def isoString (t : Nat) : String := dateString t ++ "T" ++ timeString t ++ "+00:00"

/-- `strftime("%Y-%m-%d %H:%M:%S")` (main.py:119) of an epoch-seconds
value already shifted to local time. -/
def localString (t : Nat) : String := dateString t ++ " " ++ timeString t

/-- What extracting one matched section can do: produce its row elements
(each a list of cell texts), or raise, which `scrape` catches and logs
(main.py:100-103). -/
inductive SecResult where
  | ok (rows : List (List String))
  | err (msg : String)
deriving DecidableEq, Repr

/-- A `div` element of the fetched page, reduced to what `scrape` reads:
its `id` attribute (absent allowed) and the outcome of extracting it. -/
structure PageDiv where
  id : Option String
  content : SecResult
deriving DecidableEq, Repr

/-- The allow-list of brand identifiers (main.py:92). -/
def allowList : List String :=
  ["GALERI 24", "ANTAM", "Dinar G24", "ANTAM NON PEGADAIAN", "UBS"]

/-- Python `str.strip()`: drop leading and trailing whitespace. -/
def pyStrip (s : String) : String :=
  String.mk (((s.data.dropWhile Char.isWhitespace).reverse.dropWhile Char.isWhitespace).reverse)

/-- `soup.find_all("div", id=lambda x: x and x.strip() in [...])` together
with `brand = sec.get("id").strip()` (main.py:92, 99): the matched
sections, each as its brand name and extraction outcome. -/
def matchedSections (divs : List PageDiv) : List (String × SecResult) :=
  divs.filterMap (fun d =>
    match d.id with
    | none => none
    | some s => if pyStrip s ∈ allowList then some (pyStrip s, d.content) else none)

/-- The rows one matched section contributes to `all_data`: its parsed
table, or nothing when extraction raises (main.py:100-103). -/
def sectionRows (ts : String) (sec : String × SecResult) : List RawRow :=
  match sec.2 with
  | SecResult.ok rows => parse_table ts sec.1 rows
  | SecResult.err _ => []

/-- `all_data` (main.py:97-103): the concatenation of every matched
section's rows, each row carrying the one run timestamp. -/
def allData (t : Nat) (divs : List PageDiv) : List RawRow :=
  ((matchedSections divs).map (sectionRows (isoString t))).flatten

/-- Price normalization of one raw row (main.py:111-119): both price
strings must parse, the row keeps its run timestamp, and the local string
renders the run time shifted by +7 hours. -/
def normalizeRow (t : Nat) (r : RawRow) : Option PriceRow :=
  match parse_currency_to_int (some r.jual), parse_currency_to_int (some r.buyback) with
  | some j, some b =>
      some ⟨r.timestamp, localString (t + 7 * 3600), r.brand, r.weight, j, b⟩
  | _, _ => none

/-- The rows that survive price parsing and the dropna (main.py:111-117). -/
def survivors (t : Nat) (divs : List PageDiv) : List PriceRow :=
  (allData t divs).filterMap (normalizeRow t)

/-- The one fatal error of the pure pipeline: the `RuntimeError` raised at
main.py:124 when fewer than 3 rows survive, which the spec names
`InsufficientData`; it reports the surviving row count. -/
inductive ScrapeError where
  | insufficientData (count : Nat)
deriving DecidableEq, Repr

/-- `scrape()` after the fetch (main.py:89-128): an empty section list and
an empty `all_data` each return an empty result; otherwise fewer than 3
surviving rows raise, and the surviving rows are returned. -/
def scrapeCore (t : Nat) (divs : List PageDiv) : Except ScrapeError (List PriceRow) :=
  if matchedSections divs = [] then Except.ok []
  else if allData t divs = [] then Except.ok []
  else
    let rows := survivors t divs
    if rows.length < 3 then Except.error (ScrapeError.insufficientData rows.length)
    else Except.ok rows

/-! ## Lemmas about the scrape pipeline -/

lemma matchedSections_append (l1 l2 : List PageDiv) :
    matchedSections (l1 ++ l2) = matchedSections l1 ++ matchedSections l2 :=
  List.filterMap_append l1 l2 _

lemma matchedSections_cons (d : PageDiv) (ds : List PageDiv) :
    matchedSections (d :: ds) =
      (match d.id with
        | none => []
        | some s => if pyStrip s ∈ allowList then [(pyStrip s, d.content)] else []) ++
        matchedSections ds := by
  unfold matchedSections
  rw [List.filterMap_cons]
  cases h : d.id with
  | none => rfl
  | some s =>
    by_cases hs : pyStrip s ∈ allowList
    · simp [hs]
    · simp [hs]

lemma allData_append (t : Nat) (l1 l2 : List PageDiv) :
    allData t (l1 ++ l2) = allData t l1 ++ allData t l2 := by
  unfold allData
  rw [matchedSections_append, List.map_append, List.flatten_append]

lemma allData_err_cons (t : Nat) (oid : Option String) (msg : String) (ds : List PageDiv) :
    allData t (⟨oid, SecResult.err msg⟩ :: ds) = allData t ds := by
  unfold allData
  rw [matchedSections_cons]
  cases oid with
  | none => rfl
  | some s =>
    by_cases hs : pyStrip s ∈ allowList
    · simp only [if_pos hs, List.singleton_append, List.map_cons, List.flatten_cons]
      rw [show sectionRows (isoString t) (pyStrip s, SecResult.err msg) = [] from rfl,
        List.nil_append]
    · simp only [if_neg hs, List.nil_append]

lemma allData_of_matched_nil (t : Nat) (divs : List PageDiv)
    (h : matchedSections divs = []) : allData t divs = [] := by
  unfold allData
  rw [h]
  rfl

lemma mem_parse_table_timestamp (ts brand : String) (rows : List (List String))
    (raw : RawRow) (h : raw ∈ parse_table ts brand rows) : raw.timestamp = ts := by
  rcases List.mem_filterMap.mp h with ⟨cols, -, hc⟩
  unfold rowToRaw at hc
  split at hc
  · cases hc
    rfl
  · exact absurd hc (by simp)

lemma mem_allData_timestamp (t : Nat) (divs : List PageDiv) (raw : RawRow)
    (h : raw ∈ allData t divs) : raw.timestamp = isoString t := by
  unfold allData at h
  rcases List.mem_flatten.mp h with ⟨l, hl, hraw⟩
  rcases List.mem_map.mp hl with ⟨sec, -, hsec⟩
  rcases sec with ⟨brand, content⟩
  cases content with
  | ok rows =>
    rw [← hsec] at hraw
    exact mem_parse_table_timestamp _ _ rows raw hraw
  | err msg =>
    rw [← hsec] at hraw
    cases hraw

lemma normalizeRow_fields (t : Nat) (raw : RawRow) (r : PriceRow)
    (h : normalizeRow t raw = some r) :
    r.timestamp = raw.timestamp ∧ r.timestamp_local = localString (t + 7 * 3600) := by
  unfold normalizeRow at h
  split at h
  · cases h
    exact ⟨rfl, rfl⟩
  · exact absurd h (by simp)

lemma scrapeCore_ok_cases (t : Nat) (divs : List PageDiv) (rows : List PriceRow)
    (hok : scrapeCore t divs = Except.ok rows) :
    rows = [] ∨ rows = survivors t divs := by
  unfold scrapeCore at hok
  by_cases hm : matchedSections divs = []
  · rw [if_pos hm] at hok
    cases hok
    exact Or.inl rfl
  · rw [if_neg hm] at hok
    by_cases ha : allData t divs = []
    · rw [if_pos ha] at hok
      cases hok
      exact Or.inl rfl
    · rw [if_neg ha] at hok
      by_cases hl : (survivors t divs).length < 3
      · simp only [if_pos hl] at hok
        exact absurd hok (by simp)
      · simp only [if_neg hl] at hok
        cases hok
        exact Or.inr rfl

/-- C4: every row in the result of a successful run carries the run's one
timestamp — the UTC ISO-8601 rendering of the time captured once at run
start — and its `timestamp_local` is the run time shifted by +7 hours and
rendered as a local-time string; in particular all rows of a run share one
timestamp. -/
theorem C4_one_timestamp_per_run :
    ∀ (t : Nat) (divs : List PageDiv) (rows : List PriceRow),
      scrapeCore t divs = Except.ok rows →
      ∀ r ∈ rows, r.timestamp = isoString t ∧
        r.timestamp_local = localString (t + 7 * 3600) := by
  intro t divs rows hok r hr
  rcases scrapeCore_ok_cases t divs rows hok with h | h
  · rw [h] at hr
    cases hr
  · rw [h] at hr
    rcases List.mem_filterMap.mp hr with ⟨raw, hraw, hnorm⟩
    have h1 := normalizeRow_fields t raw r hnorm
    have h2 := mem_allData_timestamp t divs raw hraw
    exact ⟨h1.1.trans h2, h1.2⟩

/-- Witness for C4: one matched section with three valid rows at run time
0; the first resulting row carries the run's ISO timestamp and the +7h
local string. -/
theorem C4_one_timestamp_per_run_witness :
    (⟨"1970-01-01T00:00:00+00:00", "1970-01-01 07:00:00", "GALERI 24",
        "1 gram", 100, 90⟩ : PriceRow).timestamp = isoString 0 ∧
    (⟨"1970-01-01T00:00:00+00:00", "1970-01-01 07:00:00", "GALERI 24",
        "1 gram", 100, 90⟩ : PriceRow).timestamp_local = localString (0 + 7 * 3600) :=
  C4_one_timestamp_per_run 0
    [⟨some "GALERI 24", SecResult.ok
      [["1 gram", "Rp 100", "Rp 90"], ["2 gram", "Rp 200", "Rp 180"],
       ["5 gram", "Rp 500", "Rp 450"]]⟩]
    [⟨"1970-01-01T00:00:00+00:00", "1970-01-01 07:00:00", "GALERI 24", "1 gram", 100, 90⟩,
     ⟨"1970-01-01T00:00:00+00:00", "1970-01-01 07:00:00", "GALERI 24", "2 gram", 200, 180⟩,
     ⟨"1970-01-01T00:00:00+00:00", "1970-01-01 07:00:00", "GALERI 24", "5 gram", 500, 450⟩]
    (by rfl)
    ⟨"1970-01-01T00:00:00+00:00", "1970-01-01 07:00:00", "GALERI 24", "1 gram", 100, 90⟩
    (by simp)

/-- Counterexample to C2 as stated: a run whose one matched section
contains zero row elements has zero rows surviving normalization — fewer
than 3 — yet the pipeline does not fail: `scrape` returns an empty result
(main.py:105-107) instead of raising `InsufficientData`. -/
theorem C2_counterexample :
    scrapeCore 0 [⟨some "ANTAM", SecResult.ok []⟩] = Except.ok [] ∧
    (survivors 0 [⟨some "ANTAM", SecResult.ok []⟩]).length < 3 := by
  constructor
  · rfl
  · decide

/-- C2 as amended: when at least one row is structurally extracted, the
minimum-rows gate behaves as claimed — fewer than 3 surviving rows fail
with `InsufficientData` (so exactly 2 valid rows fail), and 3 or more
surviving rows succeed; but when zero rows are structurally extracted
(no matched sections, or sections with no conforming row elements) the
run returns an empty result instead of failing. -/
theorem C2_min_rows_gate :
    ∀ (t : Nat) (divs : List PageDiv),
      (allData t divs = [] → scrapeCore t divs = Except.ok []) ∧
      (allData t divs ≠ [] → (survivors t divs).length < 3 →
        scrapeCore t divs =
          Except.error (ScrapeError.insufficientData (survivors t divs).length)) ∧
      (3 ≤ (survivors t divs).length →
        scrapeCore t divs = Except.ok (survivors t divs)) := by
  intro t divs
  refine ⟨?_, ?_, ?_⟩
  · intro ha
    by_cases hm : matchedSections divs = []
    · simp [scrapeCore, hm]
    · simp [scrapeCore, hm, ha]
  · intro ha hl
    have hm : matchedSections divs ≠ [] := by
      intro hm
      exact ha (allData_of_matched_nil t divs hm)
    simp [scrapeCore, hm, ha, hl]
  · intro h3
    have ha : allData t divs ≠ [] := by
      intro ha
      rw [survivors, ha] at h3
      simp at h3
    have hm : matchedSections divs ≠ [] := by
      intro hm
      exact ha (allData_of_matched_nil t divs hm)
    simp [scrapeCore, hm, ha, Nat.not_lt.mpr h3]

/-- Witness for C2: two valid rows fail with `InsufficientData 2`; three
valid rows succeed. -/
theorem C2_min_rows_gate_witness :
    scrapeCore 0 [⟨some "UBS", SecResult.ok
        [["1 gram", "Rp 100", "Rp 90"], ["2 gram", "Rp 200", "Rp 180"]]⟩] =
      Except.error (ScrapeError.insufficientData
        (survivors 0 [⟨some "UBS", SecResult.ok
          [["1 gram", "Rp 100", "Rp 90"], ["2 gram", "Rp 200", "Rp 180"]]⟩]).length) ∧
    scrapeCore 0 [⟨some "UBS", SecResult.ok
        [["1 gram", "Rp 100", "Rp 90"], ["2 gram", "Rp 200", "Rp 180"],
         ["5 gram", "Rp 500", "Rp 450"]]⟩] =
      Except.ok (survivors 0 [⟨some "UBS", SecResult.ok
        [["1 gram", "Rp 100", "Rp 90"], ["2 gram", "Rp 200", "Rp 180"],
         ["5 gram", "Rp 500", "Rp 450"]]⟩]) :=
  ⟨(C2_min_rows_gate 0 [⟨some "UBS", SecResult.ok
      [["1 gram", "Rp 100", "Rp 90"], ["2 gram", "Rp 200", "Rp 180"]]⟩]).2.1
      (by decide) (by decide),
   (C2_min_rows_gate 0 [⟨some "UBS", SecResult.ok
      [["1 gram", "Rp 100", "Rp 90"], ["2 gram", "Rp 200", "Rp 180"],
       ["5 gram", "Rp 500", "Rp 450"]]⟩]).2.2 (by decide)⟩

/-- C6: a matched section whose extraction raises is caught and skipped:
it contributes no rows, the rows extracted from every other section are
exactly what they would be without it, and the whole run result is
unchanged by its presence. -/
theorem C6_section_failure_isolated :
    ∀ (t : Nat) (ds1 ds2 : List PageDiv) (oid : Option String) (msg : String),
      allData t (ds1 ++ ⟨oid, SecResult.err msg⟩ :: ds2) =
        allData t ds1 ++ allData t ds2 ∧
      scrapeCore t (ds1 ++ ⟨oid, SecResult.err msg⟩ :: ds2) =
        scrapeCore t (ds1 ++ ds2) := by
  intro t ds1 ds2 oid msg
  have hA : allData t (ds1 ++ ⟨oid, SecResult.err msg⟩ :: ds2) =
      allData t ds1 ++ allData t ds2 := by
    rw [allData_append, allData_err_cons]
  refine ⟨hA, ?_⟩
  have hAeq : allData t (ds1 ++ ⟨oid, SecResult.err msg⟩ :: ds2) =
      allData t (ds1 ++ ds2) := by
    rw [hA, allData_append]
  have hS : survivors t (ds1 ++ ⟨oid, SecResult.err msg⟩ :: ds2) =
      survivors t (ds1 ++ ds2) := by
    unfold survivors
    rw [hAeq]
  by_cases hm2 : matchedSections (ds1 ++ ds2) = []
  · have hav : allData t (ds1 ++ ds2) = [] := allData_of_matched_nil t _ hm2
    have havL : allData t (ds1 ++ ⟨oid, SecResult.err msg⟩ :: ds2) = [] := by
      rw [hAeq]
      exact hav
    by_cases hmL : matchedSections (ds1 ++ ⟨oid, SecResult.err msg⟩ :: ds2) = []
    · simp [scrapeCore, hmL, hm2]
    · simp [scrapeCore, hmL, hm2, havL, hav]
  · have hmL : matchedSections (ds1 ++ ⟨oid, SecResult.err msg⟩ :: ds2) ≠ [] := by
      intro h
      apply hm2
      rw [matchedSections_append, matchedSections_cons] at h
      rcases List.append_eq_nil.mp h with ⟨h1, h23⟩
      rcases List.append_eq_nil.mp h23 with ⟨-, h3⟩
      rw [matchedSections_append, h1, h3]
      rfl
    simp only [scrapeCore, if_neg hmL, if_neg hm2, hAeq, hS]

/-! ## Credential handling (main.py:130-140) -/

/-- The file-system effects `auth_gspread_from_env` performs on the
credential: a `tempfile.NamedTemporaryFile` is created with a `delete`
flag, and the function may or may not remove the file afterwards. -/
structure AuthResult where
  tempFileWritten : Bool
  tempFileDeleteOnClose : Bool
  tempFileRemoved : Bool
deriving DecidableEq, Repr

/-- `auth_gspread_from_env()` (main.py:130-140): a missing or empty
`GCP_SERVICE_ACCOUNT_JSON` raises; otherwise the credential JSON is
written to a named temp file created with `delete=False` (main.py:135),
and the function returns without ever removing that file. -/
def auth_gspread_from_env (env : Option String) : Except String AuthResult :=
  match env with
  | none => Except.error "GCP_SERVICE_ACCOUNT_JSON is not set in environment"
  | some s =>
    if s.data = [] then Except.error "GCP_SERVICE_ACCOUNT_JSON is not set in environment"
    else Except.ok ⟨true, false, false⟩

/-- A temp file written with `delete=False` and never removed outlives
both the operation and the process. -/
def tempFileOutlivesProcess (a : AuthResult) : Bool :=
  a.tempFileWritten && !a.tempFileDeleteOnClose && !a.tempFileRemoved

/-- C8 fails on the code: with any non-empty credential blob in the
environment (here `"{}"`), the authentication step writes the credential
to a temp file with `delete=False` and never deletes it, so the file
outlives the operation and the process, contrary to the claim that it is
process-scoped. -/
theorem C8_temp_file_outlives_process :
    auth_gspread_from_env (some "{}") = Except.ok ⟨true, false, false⟩ ∧
    tempFileOutlivesProcess ⟨true, false, false⟩ = true := by
  constructor
  · rfl
  · rfl
